import Mathlib

/-!
Shallow embedding of the job-hunt tracker core
(src/core/constants/stages.js, src/core/constants/interview-constants.js,
src/core/models/Interaction.js, src/core/models/Application.js,
src/core/services/FollowUpService.js, src/core/ApplicationEngine.js).

Timestamps are modelled as natural numbers counting milliseconds
(`new Date()` at a call site becomes an explicit `now : Nat` parameter,
`date.setDate(date.getDate() + d)` becomes `now + d * msPerDay`,
ISO strings that only flow through comparisons and arithmetic keep that
numeric reading).  JavaScript `undefined`/`null` fields are modelled with
`Option`; a JS array field that may be `undefined` and is normalised to
`[]` before use is modelled as a plain list.  Nondeterministic id
generation (`generateId`) is modelled by passing the generated id in as a
parameter.  JS truthiness tests on strings / numbers (`x || d`) are
embedded by the explicit `jsOr*` helpers below, which treat `""` and `0`
as falsy exactly as the source does.
-/

namespace JobHunt

/-- Milliseconds per day, the divisor `1000 * 60 * 60 * 24` used in
`FollowUpService.checkReminders`. -/
def msPerDay : Nat := 86400000

/-- JS `v || d` on an optional string: `undefined` and `""` are falsy. -/
def jsOrStr (v : Option String) (d : String) : String :=
  match v with
  | some s => if s = "" then d else s
  | none => d

/-- JS `v || d` on an optional number: `undefined`/`null` and `0` are falsy. -/
def jsOrNat (v : Option Nat) (d : Nat) : Nat :=
  match v with
  | some n => if n = 0 then d else n
  | none => d

/-- JS `v || null` on an optional string: `""` collapses to `null`. -/
def jsStrOrNull (v : Option String) : Option String :=
  match v with
  | some s => if s = "" then none else some s
  | none => none

/-! ### Stage registry (src/core/constants/stages.js) -/

/-- `STAGE_ORDER` — the ordered list of registered stage codes. -/
def STAGE_ORDER : List Nat := [1, 2, 3, 4, 5, 6, 0]

/-- The `name` field of `STAGES[n]`, `none` for an unregistered code. -/
def stageName : Nat → Option String
  | 1 => some "Opportunity Received"
  | 2 => some "Under Discussion"
  | 3 => some "Screening"
  | 4 => some "Shortlisted"
  | 5 => some "Interviewing"
  | 6 => some "Offer Stage"
  | 0 => some "Closed"
  | _ => none

/-- `STAGES[s]?.name || s` — the label interpolated by `moveToStage`
(falls back to the numeric code itself). -/
def stageLabel (s : Nat) : String :=
  (stageName s).getD (toString s)

/-- `STAGES[s]?.name` interpolated with no fallback, as in
`closeApplication` — JS renders `undefined` for an unregistered code. -/
def stageNameJS (s : Nat) : String :=
  (stageName s).getD "undefined"

/-- `STAGE_ACTIONS[n] || null` — the action returned by `moveToStage`.
The registry maps 1 and 4 to `null` explicitly and any unregistered key
to `undefined`; the `|| null` at the use site flattens both to `null`,
embedded here as `none`. -/
def STAGE_ACTIONS : Nat → Option String
  | 2 => some "prompt_details"
  | 3 => some "start_followup"
  | 5 => some "schedule_interview"
  | 6 => some "prompt_result"
  | 0 => some "prompt_close_reason"
  | _ => none

/-! ### Follow-up defaults (src/core/constants/interview-constants.js) -/

structure FollowUpDefaultsT where
  initialWaitDays : Nat
  subsequentWaitDays : Nat
  maxAttempts : Nat
deriving Repr, DecidableEq

/-- `FOLLOWUP_DEFAULTS` from interview-constants.js. -/
def FOLLOWUP_DEFAULTS : FollowUpDefaultsT :=
  { initialWaitDays := 3, subsequentWaitDays := 5, maxAttempts := 3 }

/-! ### Follow-up tracker (src/core/models/Application.js) -/

structure FollowUpTracker where
  isActive : Bool
  attempts : Nat
  lastFollowUpAt : Option Nat
  nextReminderAt : Option Nat
  hrDeadlineDays : Option Nat
  waitingContext : String
deriving Repr, DecidableEq

/-- `Application.createFollowUpTracker()`. -/
def createFollowUpTracker : FollowUpTracker :=
  { isActive := false
    attempts := 0
    lastFollowUpAt := none
    nextReminderAt := none
    hrDeadlineDays := none
    waitingContext := "" }

/-! ### FollowUpService (src/core/services/FollowUpService.js) -/

/-- `FollowUpService.startTracking(app, context, hrDeadlineDays = null)`.
The source computes `waitDays = hrDeadlineDays || FOLLOWUP_DEFAULTS.initialWaitDays`
(JS truthiness: `null` and `0` both fall back to the default) and returns
the tracker it stores on the application. -/
def startTracking (now : Nat) (context : String) (hrDeadlineDays : Option Nat) :
    FollowUpTracker :=
  let waitDays := jsOrNat hrDeadlineDays FOLLOWUP_DEFAULTS.initialWaitDays
  { isActive := true
    attempts := 0
    lastFollowUpAt := none
    nextReminderAt := some (now + waitDays * msPerDay)
    hrDeadlineDays := hrDeadlineDays
    waitingContext := context }

structure FollowUpResult where
  isGhostCandidate : Bool
  attempts : Nat
deriving Repr, DecidableEq

/-- `FollowUpService.recordFollowUp(app)`: creates a fresh tracker when the
application has none, increments `attempts`, stamps `lastFollowUpAt`,
reschedules `nextReminderAt`, and returns the ghost-candidate flag with the
new attempt count.  The first component is the updated tracker. -/
def recordFollowUp (now : Nat) (t? : Option FollowUpTracker) :
    FollowUpTracker × FollowUpResult :=
  let t0 := t?.getD createFollowUpTracker
  let t1 := { t0 with
    attempts := t0.attempts + 1
    lastFollowUpAt := some now
    nextReminderAt := some (now + FOLLOWUP_DEFAULTS.subsequentWaitDays * msPerDay) }
  (t1, { isGhostCandidate := decide (t1.attempts ≥ FOLLOWUP_DEFAULTS.maxAttempts)
         attempts := t1.attempts })

/-- `FollowUpService.recordHRResponse(app)`: no-op when there is no tracker,
otherwise zeroes `attempts` and `lastFollowUpAt` and touches nothing else. -/
def recordHRResponse : Option FollowUpTracker → Option FollowUpTracker
  | none => none
  | some t => some { t with attempts := 0, lastFollowUpAt := none }

/-- `FollowUpService.stopTracking(app)`: when a tracker exists, clears
`isActive` and `nextReminderAt`. -/
def stopTracking : Option FollowUpTracker → Option FollowUpTracker
  | none => none
  | some t => some { t with isActive := false, nextReminderAt := none }

/-! ### Interaction model (src/core/models/Interaction.js) -/

structure Interaction where
  id : String
  type : String
  notes : String
  date : Nat
  stage : Option Nat
  interviewId : Option String
deriving Repr, DecidableEq

/-- `Interaction.VALID_TYPES`. -/
def VALID_TYPES : List String :=
  ["hr_called", "followed_up", "document_received", "interview_round", "note"]

/-- `Partial<InteractionData>` — the `data` argument of `Interaction.create`. -/
structure InteractionInput where
  id : Option String
  type : Option String
  notes : Option String
  date : Option Nat
  stage : Option Nat
  interviewId : Option String
deriving Repr, DecidableEq

/-- `Interaction.create(data)`; `genId` stands for the `generateId('ix')`
call and `now` for `new Date().toISOString()`.  An unknown or missing
`type` is coerced to `"note"`. -/
def Interaction.create (genId : String) (now : Nat) (data : InteractionInput) :
    Interaction :=
  { id := jsOrStr data.id genId
    type := match data.type with
      | some t => if t ∈ VALID_TYPES then t else "note"
      | none => "note"
    notes := jsOrStr data.notes ""
    date := data.date.getD now
    stage := data.stage
    interviewId := jsStrOrNull data.interviewId }

/-! ### Application record (src/core/models/Application.js) -/

structure App where
  id : String
  companyName : String
  role : String
  currentStage : Nat
  finalResult : String
  lastUpdated : Nat
  interactions : List Interaction
  followUpTracker : Option FollowUpTracker
deriving Repr, DecidableEq

/-! ### ApplicationEngine (src/core/ApplicationEngine.js) -/

/-- `ApplicationEngine.getById(id)` — `this.applications.find(app => app.id === id)`. -/
def getById (apps : List App) (appId : String) : Option App :=
  apps.find? (fun a => a.id == appId)

/-- In-place mutation of the object found by `getById`: the first list entry
with the given id is replaced by its image under `f`, everything else is
untouched. -/
def updateById (apps : List App) (appId : String) (f : App → App) : List App :=
  match apps with
  | [] => []
  | a :: rest => if a.id == appId then f a :: rest else a :: updateById rest appId f

/-- The `Interaction.create` argument built inline by `moveToStage`:
`{ type: 'note', notes: "Stage: X → Y" }`. -/
def stageNoteInput (oldStage newStage : Nat) : InteractionInput :=
  { id := none
    type := some "note"
    notes := some ("Stage: " ++ stageLabel oldStage ++ " → " ++ stageLabel newStage)
    date := none
    stage := none
    interviewId := none }

structure MoveResult where
  apps : List App
  success : Bool
  action : Option String
deriving Repr, DecidableEq

/-- The mutations `moveToStage` performs on the found application object:
set the stage, refresh `lastUpdated`, push the auto-logged note, start
follow-up tracking when entering stage 3, stop it when leaving stage 3
for any other stage. -/
def applyStageMove (now : Nat) (note : Interaction) (oldStage newStage : Nat)
    (a : App) : App :=
  let a1 := { a with
    currentStage := newStage
    lastUpdated := now
    interactions := a.interactions ++ [note] }
  if newStage = 3 then
    { a1 with followUpTracker := some (startTracking now "screening" none) }
  else if oldStage = 3 then
    { a1 with followUpTracker := stopTracking a1.followUpTracker }
  else a1

/-- `ApplicationEngine.moveToStage(appId, newStage)`.  Returns failure when
the application is missing or already at `newStage`; otherwise records the
old stage and applies `applyStageMove` to the found object, returning
`STAGE_ACTIONS[newStage] || null`.  The persistence (`saveOne`/`save`) and
`notify()` calls have no effect on the application data and are not
modelled. -/
def moveToStage (now : Nat) (genId : String) (apps : List App) (appId : String)
    (newStage : Nat) : MoveResult :=
  match getById apps appId with
  | none => { apps := apps, success := false, action := none }
  | some app =>
    if app.currentStage = newStage then { apps := apps, success := false, action := none }
    else
      let note := Interaction.create genId now (stageNoteInput app.currentStage newStage)
      let apps' := updateById apps appId (applyStageMove now note app.currentStage newStage)
      { apps := apps', success := true, action := STAGE_ACTIONS newStage }

structure CloseResult where
  apps : List App
  success : Bool
deriving Repr, DecidableEq

/-- The closure note text built by `closeApplication`:
`Closed: ${STAGES[oldStage]?.name} → Closed (${reason})${notes ? '. ' + notes : ''}`. -/
def closeNoteText (oldStage : Nat) (reason notes : String) : String :=
  "Closed: " ++ stageNameJS oldStage ++ " → Closed (" ++ reason ++ ")" ++
    (if notes = "" then "" else ". " ++ notes)

/-- The `Interaction.create` argument built inline by `closeApplication`. -/
def closeNoteInput (oldStage : Nat) (reason notes : String) : InteractionInput :=
  { id := none
    type := some "note"
    notes := some (closeNoteText oldStage reason notes)
    date := none
    stage := none
    interviewId := none }

/-- The mutations `closeApplication` performs on the found application
object: stage 0, `finalResult = reason`, refreshed `lastUpdated`, stopped
tracker, auto-logged closure note. -/
def applyClose (now : Nat) (genId : String) (reason notes : String) (a : App) : App :=
  let note := Interaction.create genId now (closeNoteInput a.currentStage reason notes)
  { a with
    currentStage := 0
    finalResult := reason
    lastUpdated := now
    followUpTracker := stopTracking a.followUpTracker
    interactions := a.interactions ++ [note] }

/-- `ApplicationEngine.closeApplication(appId, reason, notes = '')`.
Fails when the application is missing; otherwise applies `applyClose` to
the found object. -/
def closeApplication (now : Nat) (genId : String) (apps : List App) (appId : String)
    (reason : String) (notes : String) : CloseResult :=
  match getById apps appId with
  | none => { apps := apps, success := false }
  | some _ =>
    { apps := updateById apps appId (applyClose now genId reason notes), success := true }

/-- `app.followUpTracker?.isActive` — the optional-chaining guard used by
`addInteraction`. -/
def trackerActive : Option FollowUpTracker → Bool
  | none => false
  | some t => t.isActive

structure AddResult where
  apps : List App
  success : Bool
  errors : List String
  data : Option Interaction
deriving Repr, DecidableEq

/-- The mutations `addInteraction` performs on the found application
object: push the created interaction, refresh `lastUpdated`; an
`hr_called` or `document_received` raw type triggers `recordHRResponse`,
a `followed_up` raw type with an active tracker triggers `recordFollowUp`,
and a supplied `newStage` overwrites `currentStage`. -/
def applyAddInteraction (now : Nat) (interaction : Interaction)
    (dataType : Option String) (newStage : Option Nat) (a : App) : App :=
  let a1 := { a with
    interactions := a.interactions ++ [interaction]
    lastUpdated := now }
  let a2 :=
    if dataType = some "hr_called" ∨ dataType = some "document_received" then
      { a1 with followUpTracker := recordHRResponse a1.followUpTracker }
    else a1
  let a3 :=
    if dataType = some "followed_up" ∧ trackerActive a2.followUpTracker = true then
      { a2 with followUpTracker := some (recordFollowUp now a2.followUpTracker).1 }
    else a2
  match newStage with
  | some s => { a3 with currentStage := s }
  | none => a3

/-- `ApplicationEngine.addInteraction(appId, data, newStage)`.  Fails only
when the application is missing; otherwise the interaction produced by
`Interaction.create` is pushed unconditionally via `applyAddInteraction`. -/
def addInteraction (now : Nat) (genId : String) (apps : List App) (appId : String)
    (data : InteractionInput) (newStage : Option Nat) : AddResult :=
  match getById apps appId with
  | none => { apps := apps, success := false, errors := ["Application not found"], data := none }
  | some _ =>
    let interaction := Interaction.create genId now data
    let apps' := updateById apps appId (applyAddInteraction now interaction data.type newStage)
    { apps := apps', success := true, errors := [], data := some interaction }

/-- The `merge` branch of `ApplicationEngine.importData(jsonString, merge)`,
after a successful `JSON.parse` that yielded the array `payload`:
`existingIds = new Set(this.applications.map(a => a.id))`,
`newApps = payload.filter(a => !existingIds.has(a.id))`,
`this.applications.push(...newApps)`. -/
def importDataMerge (apps : List App) (payload : List App) : List App :=
  let existingIds := apps.map (fun a => a.id)
  apps ++ payload.filter (fun a => !existingIds.contains a.id)

/-! ### checkReminders (src/core/services/FollowUpService.js) -/

structure Reminder where
  appId : String
  companyName : String
  role : String
  context : String
  attempts : Nat
  isGhostCandidate : Bool
  daysSinceReminder : Nat
deriving Repr, DecidableEq

/-- `FollowUpService.checkReminders(applications)` — the loop over the
applications, skipping any entry without a tracker, with an inactive
tracker, or with no `nextReminderAt`, and pushing a descriptor whenever
`now >= reminderDate`.  `daysSinceReminder` is
`Math.floor((now - reminderDate) / (1000*60*60*24))`. -/
def checkReminders (now : Nat) : List App → List Reminder
  | [] => []
  | app :: rest =>
    match app.followUpTracker with
    | none => checkReminders now rest
    | some t =>
      if t.isActive = false then checkReminders now rest
      else
        match t.nextReminderAt with
        | none => checkReminders now rest
        | some rd =>
          if rd ≤ now then
            { appId := app.id
              companyName := app.companyName
              role := app.role
              context := t.waitingContext
              attempts := t.attempts
              isGhostCandidate := decide (t.attempts ≥ FOLLOWUP_DEFAULTS.maxAttempts)
              daysSinceReminder := (now - rd) / msPerDay } :: checkReminders now rest
          else checkReminders now rest

/-- Spec-side description of a reminder descriptor (written from the
claim, to be compared with the source-embedded `checkReminders`): an
application contributes exactly one descriptor when its tracker exists, is
active, and has a non-null `nextReminderAt` that is ≤ now, carrying the
application's identity fields, the waiting context, the attempt count, the
whole days elapsed since the reminder date, and a ghost flag at the
3-attempt threshold; otherwise it contributes nothing. -/
def reminderSpec (now : Nat) (app : App) : Option Reminder :=
  match app.followUpTracker with
  | none => none
  | some t =>
    match t.nextReminderAt with
    | none => none
    | some rd =>
      if t.isActive = true ∧ rd ≤ now then
        some { appId := app.id
               companyName := app.companyName
               role := app.role
               context := t.waitingContext
               attempts := t.attempts
               isGhostCandidate := decide (3 ≤ t.attempts)
               daysSinceReminder := (now - rd) / msPerDay }
      else none

/-! ### Sample data for concrete evaluations -/

/-- An open application at stage 1 with no interactions and no tracker. -/
def appOpen : App :=
  { id := "a1"
    companyName := "Acme"
    role := "Dev"
    currentStage := 1
    finalResult := ""
    lastUpdated := 0
    interactions := []
    followUpTracker := none }

/-- A closed application (stage 0). -/
def appClosed : App :=
  { id := "a2"
    companyName := "Globex"
    role := "SRE"
    currentStage := 0
    finalResult := "rejected"
    lastUpdated := 0
    interactions := []
    followUpTracker := none }

/-- A fresh active tracker with no attempts, as `startTracking` leaves it. -/
def trackerFresh : FollowUpTracker :=
  { isActive := true
    attempts := 0
    lastFollowUpAt := none
    nextReminderAt := some 100
    hrDeadlineDays := none
    waitingContext := "screening" }

/-- Iterating `recordFollowUp` over successive call times, threading the
tracker through and collecting each call's return value in order. -/
def recordFollowUpRuns (t : FollowUpTracker) :
    List Nat → FollowUpTracker × List FollowUpResult
  | [] => (t, [])
  | now :: rest =>
    let p := recordFollowUp now (some t)
    let q := recordFollowUpRuns p.1 rest
    (q.1, p.2 :: q.2)

/-- A tracker mid-flight, for frame-property evaluations. -/
def sampleTracker : FollowUpTracker :=
  { isActive := true
    attempts := 2
    lastFollowUpAt := some 500
    nextReminderAt := some 900
    hrDeadlineDays := some 7
    waitingContext := "screening" }

/-! ### Helper lemmas -/

/-- Looking up the updated id after `updateById` returns the image of the
old record, provided the update preserves the id. -/
theorem getById_updateById (apps : List App) (appId : String) (f : App → App)
    (hid : ∀ a, (f a).id = a.id) :
    getById (updateById apps appId f) appId = (getById apps appId).map f := by
  induction apps with
  | nil => rfl
  | cons a rest ih =>
    by_cases h : (a.id == appId) = true
    · have hfa : ((f a).id == appId) = true := by rw [hid]; exact h
      simp only [updateById, getById, if_pos h, List.find?_cons, hfa, h, Option.map_some',
        if_true, ite_true]
    · simp only [updateById, getById, if_neg h, List.find?_cons, h, Bool.false_eq_true,
        cond_false, if_false, ite_false]
      simpa only [getById] using ih

/-- `jsOrStr (some s) ""` is the identity: either branch returns `s`. -/
theorem jsOrStr_some_empty (s : String) : jsOrStr (some s) "" = s := by
  by_cases h : s = "" <;> simp [jsOrStr, h]

/-- `applyStageMove` preserves the application id. -/
theorem applyStageMove_id (now : Nat) (note : Interaction) (oldStage newStage : Nat)
    (a : App) : (applyStageMove now note oldStage newStage a).id = a.id := by
  by_cases h3 : newStage = 3
  · simp [applyStageMove, h3]
  · by_cases ho : oldStage = 3 <;> simp [applyStageMove, h3, ho]

/-- `applyClose` preserves the application id. -/
theorem applyClose_id (now : Nat) (genId : String) (reason notes : String) (a : App) :
    (applyClose now genId reason notes a).id = a.id := rfl

/-- `applyAddInteraction` preserves the application id. -/
theorem applyAddInteraction_id (now : Nat) (interaction : Interaction)
    (dataType : Option String) (newStage : Option Nat) (a : App) :
    (applyAddInteraction now interaction dataType newStage a).id = a.id := by
  unfold applyAddInteraction
  cases newStage <;> dsimp only <;> split <;> split <;> rfl

/-- Dropping the head of a non-empty-tailed list keeps the last element. -/
theorem getLast?_cons_of_ne {α : Type} (x : α) (l : List α) (h : l ≠ []) :
    (x :: l).getLast? = l.getLast? := by
  cases l with
  | nil => exact absurd rfl h
  | cons b m => exact List.getLast?_cons_cons

/-- Iterating over at least one call time returns at least one result. -/
theorem recordFollowUpRuns_snd_ne (t : FollowUpTracker) (x : Nat) (xs : List Nat) :
    (recordFollowUpRuns t (x :: xs)).2 ≠ [] := by
  show _ :: _ ≠ []
  exact List.cons_ne_nil _ _

/-- Invariants of iterated `recordFollowUp`: attempts accumulate one per
call, the final tracker carries the last call's stamp and reschedule, and
the last call's returned result reports the accumulated attempt count with
the ghost flag at the 3-attempt threshold. -/
theorem recordFollowUpRuns_props (times : List Nat) (hne : times ≠ [])
    (t : FollowUpTracker) :
    (recordFollowUpRuns t times).1.attempts = t.attempts + times.length ∧
    (recordFollowUpRuns t times).1.lastFollowUpAt = times.getLast? ∧
    (recordFollowUpRuns t times).1.nextReminderAt =
      times.getLast?.map (fun x => x + 5 * msPerDay) ∧
    (recordFollowUpRuns t times).2.getLast? =
      some { isGhostCandidate := decide (3 ≤ t.attempts + times.length)
             attempts := t.attempts + times.length } := by
  induction times generalizing t with
  | nil => exact absurd rfl hne
  | cons n rest ih =>
    cases rest with
    | nil => exact ⟨rfl, rfl, rfl, rfl⟩
    | cons m rest' =>
      have hne' : (m :: rest') ≠ [] := List.cons_ne_nil m rest'
      obtain ⟨ha, hl, hr, hg⟩ := ih hne' (recordFollowUp n (some t)).1
      have hstep : (recordFollowUp n (some t)).1.attempts = t.attempts + 1 := rfl
      rw [hstep] at ha hg
      have harith : t.attempts + 1 + (m :: rest').length =
          t.attempts + (n :: m :: rest').length := by
        simp [List.length_cons]
        omega
      rw [harith] at ha hg
      refine ⟨?_, ?_, ?_, ?_⟩
      · exact ha
      · show (recordFollowUpRuns (recordFollowUp n (some t)).1 (m :: rest')).1.lastFollowUpAt = _
        rw [hl, List.getLast?_cons_cons]
      · show (recordFollowUpRuns (recordFollowUp n (some t)).1 (m :: rest')).1.nextReminderAt = _
        rw [hr, List.getLast?_cons_cons]
      · show ((recordFollowUp n (some t)).2 ::
            (recordFollowUpRuns (recordFollowUp n (some t)).1 (m :: rest')).2).getLast? = _
        rw [getLast?_cons_of_ne _ _ (recordFollowUpRuns_snd_ne _ m rest'), hg]

/-- An `Interaction.create` call whose input carries `type: 'note'`
produces an interaction of type `"note"`. -/
theorem create_note_type (genId : String) (now : Nat) (inp : InteractionInput)
    (h : inp.type = some "note") : (Interaction.create genId now inp).type = "note" := by
  simp [Interaction.create, h]

/-! ### Claim theorems -/

/-- Claim C1 (code_bug evidence): `moveToStage` performs no validation of the
target stage.  Moving the open application `a1` to the unregistered code 99
succeeds and stores `currentStage = 99`, and moving the closed application
`a2` (stage 0) to stage 3 also succeeds, so neither the registry invariant
nor the terminality of stage 0 is enforced by the code. -/
theorem moveToStage_skips_stage_validation :
    (moveToStage 1000 "ix1" [appOpen] "a1" 99).success = true ∧
    (moveToStage 1000 "ix1" [appOpen] "a1" 99).apps.map App.currentStage = [99] ∧
    STAGE_ORDER.contains 99 = false ∧
    (moveToStage 1000 "ix1" [appClosed] "a2" 3).success = true ∧
    (moveToStage 1000 "ix1" [appClosed] "a2" 3).apps.map App.currentStage = [3] := by
  decide

/-- Claim C2: on an existing application whose stage differs from the
target, `moveToStage` succeeds, returns the registry action for the new
stage, sets `currentStage = newStage`, refreshes `lastUpdated`, appends
exactly one automatic note Interaction documenting the old → new stage
change, installs the `"screening"` follow-up tracker exactly when the new
stage is 3, stops tracking exactly when leaving stage 3 for another stage,
and otherwise leaves the tracker untouched. -/
theorem moveToStage_success_postcondition
    (now : Nat) (genId : String) (apps : List App) (appId : String) (newStage : Nat)
    (app : App) (hfind : getById apps appId = some app)
    (hne : app.currentStage ≠ newStage) :
    (moveToStage now genId apps appId newStage).success = true ∧
    (moveToStage now genId apps appId newStage).action = STAGE_ACTIONS newStage ∧
    ∃ upd, getById (moveToStage now genId apps appId newStage).apps appId = some upd ∧
      upd.currentStage = newStage ∧
      upd.lastUpdated = now ∧
      upd.interactions = app.interactions ++
        [Interaction.create genId now (stageNoteInput app.currentStage newStage)] ∧
      (Interaction.create genId now (stageNoteInput app.currentStage newStage)).type =
        "note" ∧
      (Interaction.create genId now (stageNoteInput app.currentStage newStage)).notes =
        "Stage: " ++ stageLabel app.currentStage ++ " → " ++ stageLabel newStage ∧
      (newStage = 3 →
        upd.followUpTracker = some (startTracking now "screening" none)) ∧
      (app.currentStage = 3 → newStage ≠ 3 →
        upd.followUpTracker = stopTracking app.followUpTracker) ∧
      (app.currentStage ≠ 3 → newStage ≠ 3 →
        upd.followUpTracker = app.followUpTracker) := by
  have hred : moveToStage now genId apps appId newStage =
      { apps := updateById apps appId
          (applyStageMove now
            (Interaction.create genId now (stageNoteInput app.currentStage newStage))
            app.currentStage newStage)
        success := true
        action := STAGE_ACTIONS newStage } := by
    simp [moveToStage, hfind, hne]
  refine ⟨by rw [hred], by rw [hred], ?_⟩
  rw [hred]
  have hget := getById_updateById apps appId
    (applyStageMove now
      (Interaction.create genId now (stageNoteInput app.currentStage newStage))
      app.currentStage newStage)
    (fun a => applyStageMove_id now _ app.currentStage newStage a)
  dsimp only
  rw [hget, hfind, Option.map_some']
  refine ⟨_, rfl, ?_, ?_, ?_, ?_, ?_, ?_, ?_, ?_⟩
  · by_cases h3 : newStage = 3
    · simp [applyStageMove, h3]
    · by_cases ho : app.currentStage = 3 <;> simp [applyStageMove, h3, ho]
  · by_cases h3 : newStage = 3
    · simp [applyStageMove, h3]
    · by_cases ho : app.currentStage = 3 <;> simp [applyStageMove, h3, ho]
  · by_cases h3 : newStage = 3
    · simp [applyStageMove, h3]
    · by_cases ho : app.currentStage = 3 <;> simp [applyStageMove, h3, ho]
  · exact create_note_type genId now _ rfl
  · simp [Interaction.create, stageNoteInput, jsOrStr_some_empty]
  · intro h3
    simp [applyStageMove, h3]
  · intro ho h3
    simp [applyStageMove, h3, ho, stopTracking]
  · intro ho h3
    simp [applyStageMove, h3, ho]

/-- Witness for C2: moving the sample open application from stage 1 to
stage 3 on a concrete state. -/
theorem moveToStage_success_postcondition_witness :
    (getById [appOpen] "a1" = some appOpen ∧ appOpen.currentStage ≠ 3) ∧
    ((moveToStage 1000 "ix1" [appOpen] "a1" 3).success = true ∧
      (moveToStage 1000 "ix1" [appOpen] "a1" 3).action = STAGE_ACTIONS 3 ∧
      ∃ upd, getById (moveToStage 1000 "ix1" [appOpen] "a1" 3).apps "a1" = some upd ∧
        upd.currentStage = 3 ∧
        upd.lastUpdated = 1000 ∧
        upd.interactions = appOpen.interactions ++
          [Interaction.create "ix1" 1000 (stageNoteInput appOpen.currentStage 3)] ∧
        (Interaction.create "ix1" 1000 (stageNoteInput appOpen.currentStage 3)).type =
          "note" ∧
        (Interaction.create "ix1" 1000 (stageNoteInput appOpen.currentStage 3)).notes =
          "Stage: " ++ stageLabel appOpen.currentStage ++ " → " ++ stageLabel 3 ∧
        (3 = 3 →
          upd.followUpTracker = some (startTracking 1000 "screening" none)) ∧
        (appOpen.currentStage = 3 → 3 ≠ 3 →
          upd.followUpTracker = stopTracking appOpen.followUpTracker) ∧
        (appOpen.currentStage ≠ 3 → 3 ≠ 3 →
          upd.followUpTracker = appOpen.followUpTracker)) :=
  ⟨⟨by decide, by decide⟩,
    moveToStage_success_postcondition 1000 "ix1" [appOpen] "a1" 3 appOpen
      (by decide) (by decide)⟩

/-- Claim C3: when the application id does not exist or the target stage
equals the current stage, `moveToStage` returns failure and the whole
collection is returned unchanged — no interaction, stage, timestamp or
tracker of any application is touched. -/
theorem moveToStage_noop_on_bad_input
    (now : Nat) (genId : String) (apps : List App) (appId : String) (newStage : Nat)
    (h : getById apps appId = none ∨
      ∃ app, getById apps appId = some app ∧ app.currentStage = newStage) :
    moveToStage now genId apps appId newStage =
      { apps := apps, success := false, action := none } := by
  rcases h with h | ⟨app, hfind, heq⟩
  · simp [moveToStage, h]
  · simp [moveToStage, hfind, heq]

/-- Witness for C3: calling `moveToStage` with the application's current
stage is a no-op on a concrete state. -/
theorem moveToStage_noop_on_bad_input_witness :
    (getById [appOpen] "a1" = some appOpen ∧ appOpen.currentStage = 1) ∧
    moveToStage 1000 "ix1" [appOpen] "a1" 1 =
      { apps := [appOpen], success := false, action := none } :=
  ⟨⟨by decide, rfl⟩,
    moveToStage_noop_on_bad_input 1000 "ix1" [appOpen] "a1" 1
      (Or.inr ⟨appOpen, by decide, rfl⟩)⟩

/-- Claim C4: `closeApplication` on an existing application sets
`currentStage = 0` and `finalResult = reason` (non-empty whenever the
reason is), deactivates the follow-up tracker when one exists
(`isActive = false`, `nextReminderAt = none`), and appends exactly one
closure Interaction whose text carries the old stage name and the reason;
on a missing id it returns failure and the collection unchanged. -/
theorem closeApplication_postcondition
    (now : Nat) (genId : String) (apps : List App) (appId : String)
    (reason notes : String) :
    (getById apps appId = none →
      closeApplication now genId apps appId reason notes =
        { apps := apps, success := false }) ∧
    (∀ app, getById apps appId = some app →
      (closeApplication now genId apps appId reason notes).success = true ∧
      ∃ upd, getById (closeApplication now genId apps appId reason notes).apps appId =
          some upd ∧
        upd.currentStage = 0 ∧
        upd.finalResult = reason ∧
        (reason ≠ "" → upd.finalResult ≠ "") ∧
        upd.followUpTracker = stopTracking app.followUpTracker ∧
        (∀ t, upd.followUpTracker = some t →
          t.isActive = false ∧ t.nextReminderAt = none) ∧
        upd.interactions = app.interactions ++
          [Interaction.create genId now (closeNoteInput app.currentStage reason notes)] ∧
        (Interaction.create genId now (closeNoteInput app.currentStage reason notes)).notes =
          "Closed: " ++ stageNameJS app.currentStage ++ " → Closed (" ++ reason ++ ")" ++
            (if notes = "" then "" else ". " ++ notes)) := by
  constructor
  · intro h
    simp [closeApplication, h]
  · intro app hfind
    have hred : closeApplication now genId apps appId reason notes =
        { apps := updateById apps appId (applyClose now genId reason notes)
          success := true } := by
      simp [closeApplication, hfind]
    refine ⟨by rw [hred], ?_⟩
    rw [hred]
    have hget := getById_updateById apps appId (applyClose now genId reason notes)
      (fun a => applyClose_id now genId reason notes a)
    dsimp only
    rw [hget, hfind, Option.map_some']
    refine ⟨_, rfl, rfl, rfl, fun h => h, rfl, ?_, rfl, ?_⟩
    · intro t ht
      cases hft : app.followUpTracker with
      | none => simp [applyClose, stopTracking, hft] at ht
      | some t0 =>
        rw [show (applyClose now genId reason notes app).followUpTracker =
            stopTracking app.followUpTracker from rfl, hft] at ht
        simp [stopTracking] at ht
        subst ht
        exact ⟨rfl, rfl⟩
    · simp [Interaction.create, closeNoteInput, jsOrStr_some_empty, closeNoteText]

/-- Witness for C4: closing the sample open application with reason
`"rejected"` on a concrete state. -/
theorem closeApplication_postcondition_witness :
    (getById [appOpen] "a1" = some appOpen) ∧
    (closeApplication 1000 "ix1" [appOpen] "a1" "rejected" "").success = true ∧
    ∃ upd,
      getById (closeApplication 1000 "ix1" [appOpen] "a1" "rejected" "").apps "a1" =
        some upd ∧
      upd.currentStage = 0 ∧
      upd.finalResult = "rejected" ∧
      ("rejected" ≠ "" → upd.finalResult ≠ "") ∧
      upd.followUpTracker = stopTracking appOpen.followUpTracker ∧
      (∀ t, upd.followUpTracker = some t →
        t.isActive = false ∧ t.nextReminderAt = none) ∧
      upd.interactions = appOpen.interactions ++
        [Interaction.create "ix1" 1000 (closeNoteInput appOpen.currentStage "rejected" "")] ∧
      (Interaction.create "ix1" 1000 (closeNoteInput appOpen.currentStage "rejected" "")).notes =
        "Closed: " ++ stageNameJS appOpen.currentStage ++ " → Closed (" ++ "rejected" ++ ")" ++
          (if ("" : String) = "" then "" else ". " ++ "") :=
  ⟨by decide,
    (closeApplication_postcondition 1000 "ix1" [appOpen] "a1" "rejected" "").2 appOpen
      (by decide)⟩

/-- Claim C5 (counterexample): with an HR deadline of 0 days — a non-null
value — `startTracking` does not schedule the reminder at `now + 0` days as
the claim requires; the JS `hrDeadlineDays || initialWaitDays` treats 0 as
falsy and falls back to the 3-day default. -/
theorem startTracking_zero_deadline_cex :
    (some 0 : Option Nat) ≠ none ∧
    (startTracking 1000 "screening" (some 0)).nextReminderAt ≠
      some (1000 + 0 * msPerDay) ∧
    (startTracking 1000 "screening" (some 0)).nextReminderAt =
      some (1000 + 3 * msPerDay) := by
  decide

/-- Claim C5 (amended): `startTracking` leaves the tracker active with zero
attempts, no `lastFollowUpAt`, the given context, and schedules
`nextReminderAt` at `now + hrDeadlineDays` days when `hrDeadlineDays` is
non-null and positive; when it is null or 0 the 3-day default applies. -/
theorem startTracking_postcondition
    (now : Nat) (context : String) (hrDeadlineDays : Option Nat) :
    (startTracking now context hrDeadlineDays).isActive = true ∧
    (startTracking now context hrDeadlineDays).attempts = 0 ∧
    (startTracking now context hrDeadlineDays).lastFollowUpAt = none ∧
    (startTracking now context hrDeadlineDays).waitingContext = context ∧
    (startTracking now context hrDeadlineDays).hrDeadlineDays = hrDeadlineDays ∧
    (∀ d, hrDeadlineDays = some d → 0 < d →
      (startTracking now context hrDeadlineDays).nextReminderAt =
        some (now + d * msPerDay)) ∧
    (hrDeadlineDays = none ∨ hrDeadlineDays = some 0 →
      (startTracking now context hrDeadlineDays).nextReminderAt =
        some (now + 3 * msPerDay)) := by
  refine ⟨rfl, rfl, rfl, rfl, rfl, ?_, ?_⟩
  · rintro d rfl hd
    simp [startTracking, jsOrNat, Nat.pos_iff_ne_zero.mp hd]
  · rintro (rfl | rfl) <;> simp [startTracking, jsOrNat, FOLLOWUP_DEFAULTS]

/-- Witness for the amended C5 at a concrete positive deadline. -/
theorem startTracking_postcondition_witness :
    (startTracking 1000 "screening" (some 7)).isActive = true ∧
    (startTracking 1000 "screening" (some 7)).attempts = 0 ∧
    (startTracking 1000 "screening" (some 7)).lastFollowUpAt = none ∧
    (startTracking 1000 "screening" (some 7)).waitingContext = "screening" ∧
    (startTracking 1000 "screening" (some 7)).hrDeadlineDays = some 7 ∧
    (∀ d, (some 7 : Option Nat) = some d → 0 < d →
      (startTracking 1000 "screening" (some 7)).nextReminderAt =
        some (1000 + d * msPerDay)) ∧
    ((some 7 : Option Nat) = none ∨ (some 7 : Option Nat) = some 0 →
      (startTracking 1000 "screening" (some 7)).nextReminderAt =
        some (1000 + 3 * msPerDay)) :=
  startTracking_postcondition 1000 "screening" (some 7)

/-- Claim C6: starting from a tracker with `attempts = 0`, iterating
`recordFollowUp` over the (non-empty) list of call times leaves
`attempts` at exactly the number of calls; the final tracker carries the
last call's time in `lastFollowUpAt` and schedules `nextReminderAt` five
days after it, the final call's returned flag is ghost-candidate exactly
when the call count reaches 3, and each single call stamps its own time
and advances `attempts` by one. -/
theorem recordFollowUp_count_and_ghost
    (t : FollowUpTracker) (times : List Nat) (h0 : t.attempts = 0) (hne : times ≠ []) :
    (recordFollowUpRuns t times).1.attempts = times.length ∧
    (recordFollowUpRuns t times).1.lastFollowUpAt = times.getLast? ∧
    (recordFollowUpRuns t times).1.nextReminderAt =
      times.getLast?.map (fun x => x + 5 * msPerDay) ∧
    (recordFollowUpRuns t times).2.getLast? =
      some { isGhostCandidate := decide (3 ≤ times.length), attempts := times.length } ∧
    (∀ nw u, (recordFollowUp nw (some u)).1.lastFollowUpAt = some nw ∧
      (recordFollowUp nw (some u)).1.nextReminderAt = some (nw + 5 * msPerDay) ∧
      (recordFollowUp nw (some u)).1.attempts = u.attempts + 1) := by
  obtain ⟨ha, hl, hr, hg⟩ := recordFollowUpRuns_props times hne t
  rw [h0, Nat.zero_add] at ha hg
  exact ⟨ha, hl, hr, hg, fun nw u => ⟨rfl, rfl, rfl⟩⟩

/-- Witness for C6: three follow-ups on a fresh active tracker reach
attempts = 3 and flag a ghost candidate. -/
theorem recordFollowUp_count_and_ghost_witness :
    (trackerFresh.attempts = 0 ∧ ([10, 20, 30] : List Nat) ≠ []) ∧
    ((recordFollowUpRuns trackerFresh [10, 20, 30]).1.attempts = ([10, 20, 30] : List Nat).length ∧
      (recordFollowUpRuns trackerFresh [10, 20, 30]).1.lastFollowUpAt =
        ([10, 20, 30] : List Nat).getLast? ∧
      (recordFollowUpRuns trackerFresh [10, 20, 30]).1.nextReminderAt =
        ([10, 20, 30] : List Nat).getLast?.map (fun x => x + 5 * msPerDay) ∧
      (recordFollowUpRuns trackerFresh [10, 20, 30]).2.getLast? =
        some { isGhostCandidate := decide (3 ≤ ([10, 20, 30] : List Nat).length)
               attempts := ([10, 20, 30] : List Nat).length } ∧
      (∀ nw u, (recordFollowUp nw (some u)).1.lastFollowUpAt = some nw ∧
        (recordFollowUp nw (some u)).1.nextReminderAt = some (nw + 5 * msPerDay) ∧
        (recordFollowUp nw (some u)).1.attempts = u.attempts + 1)) :=
  ⟨⟨rfl, by decide⟩,
    recordFollowUp_count_and_ghost trackerFresh [10, 20, 30] rfl (by decide)⟩

/-- Claim C8: `checkReminders` is an exact query — a pure function of the
application list and the current time whose result is precisely one
descriptor per application with an active tracker whose non-null
`nextReminderAt` has passed, in list order, as captured by the spec-side
`reminderSpec`; every other application contributes nothing, and being a
function of its inputs, repeated calls agree. -/
theorem checkReminders_eq_filterMap (now : Nat) (apps : List App) :
    checkReminders now apps = apps.filterMap (reminderSpec now) := by
  induction apps with
  | nil => rfl
  | cons app rest ih =>
    cases hft : app.followUpTracker with
    | none =>
      simpa [checkReminders, List.filterMap_cons, reminderSpec, hft] using ih
    | some t =>
      by_cases ha : t.isActive = true
      · cases hr : t.nextReminderAt with
        | none =>
          simpa [checkReminders, List.filterMap_cons, reminderSpec, hft, ha, hr] using ih
        | some rd =>
          by_cases hle : rd ≤ now
          · simp [checkReminders, List.filterMap_cons, reminderSpec, hft, ha, hr, hle, ih,
              FOLLOWUP_DEFAULTS]
          · simpa [checkReminders, List.filterMap_cons, reminderSpec, hft, ha, hr, hle]
              using ih
      · have ha' : t.isActive = false := by
          cases hb : t.isActive
          · rfl
          · exact absurd hb ha
        cases hr : t.nextReminderAt with
        | none =>
          simpa [checkReminders, List.filterMap_cons, reminderSpec, hft, ha', hr] using ih
        | some rd =>
          simpa [checkReminders, List.filterMap_cons, reminderSpec, hft, ha', hr] using ih

/-- Claim C7: `recordHRResponse` on an existing tracker zeroes `attempts`
and `lastFollowUpAt` and preserves every other field — `isActive`,
`waitingContext`, `nextReminderAt` and `hrDeadlineDays`. -/
theorem recordHRResponse_frame (t : FollowUpTracker) :
    ∃ t', recordHRResponse (some t) = some t' ∧
      t'.attempts = 0 ∧
      t'.lastFollowUpAt = none ∧
      t'.isActive = t.isActive ∧
      t'.waitingContext = t.waitingContext ∧
      t'.nextReminderAt = t.nextReminderAt ∧
      t'.hrDeadlineDays = t.hrDeadlineDays :=
  ⟨_, rfl, rfl, rfl, rfl, rfl, rfl, rfl⟩

/-- An interaction payload whose `type` is not a valid interaction type. -/
def bogusInput : InteractionInput :=
  { id := none
    type := some "telepathy"
    notes := some "sent good vibes"
    date := none
    stage := none
    interviewId := none }

/-- Claim C9 (counterexample): `addInteraction` on an existing application
with an invalid interaction type is NOT aborted — it succeeds with no
error messages and appends an interaction (coerced to type `"note"`),
mutating the collection. -/
theorem addInteraction_accepts_invalid_type :
    ("telepathy" ∈ VALID_TYPES → False) ∧
    (addInteraction 1000 "ix1" [appOpen] "a1" bogusInput none).success = true ∧
    (addInteraction 1000 "ix1" [appOpen] "a1" bogusInput none).errors = [] ∧
    (getById (addInteraction 1000 "ix1" [appOpen] "a1" bogusInput none).apps "a1").map
      (fun a => a.interactions.map Interaction.type) = some ["note"] ∧
    appOpen.interactions = [] := by
  decide

/-- Claim C9 (amended): `addInteraction` never validates the interaction
payload: on an existing application it always succeeds with an empty error
list, appending exactly the one interaction normalized by
`Interaction.create` (an unrecognized type is coerced to `"note"`) and
refreshing `lastUpdated`; only a non-existent application id aborts,
returning the error list `["Application not found"]` and leaving the
collection unchanged. -/
theorem addInteraction_postcondition
    (now : Nat) (genId : String) (apps : List App) (appId : String)
    (data : InteractionInput) :
    (getById apps appId = none →
      addInteraction now genId apps appId data none =
        { apps := apps, success := false, errors := ["Application not found"],
          data := none }) ∧
    (∀ app, getById apps appId = some app →
      (addInteraction now genId apps appId data none).success = true ∧
      (addInteraction now genId apps appId data none).errors = [] ∧
      ∃ upd, getById (addInteraction now genId apps appId data none).apps appId =
          some upd ∧
        upd.interactions = app.interactions ++ [Interaction.create genId now data] ∧
        upd.lastUpdated = now ∧
        (∀ ty, data.type = some ty → ty ∉ VALID_TYPES →
          (Interaction.create genId now data).type = "note") ∧
        (Interaction.create genId now data).type ∈ VALID_TYPES) := by
  constructor
  · intro h
    simp [addInteraction, h]
  · intro app hfind
    have hred : addInteraction now genId apps appId data none =
        { apps := updateById apps appId
            (applyAddInteraction now (Interaction.create genId now data) data.type none)
          success := true
          errors := []
          data := some (Interaction.create genId now data) } := by
      simp [addInteraction, hfind]
    refine ⟨by rw [hred], by rw [hred], ?_⟩
    rw [hred]
    have hget := getById_updateById apps appId
      (applyAddInteraction now (Interaction.create genId now data) data.type none)
      (fun a => applyAddInteraction_id now _ data.type none a)
    dsimp only
    rw [hget, hfind, Option.map_some']
    refine ⟨_, rfl, ?_, ?_, ?_, ?_⟩
    · unfold applyAddInteraction
      dsimp only
      split <;> split <;> rfl
    · unfold applyAddInteraction
      dsimp only
      split <;> split <;> rfl
    · intro ty hty hnv
      simp [Interaction.create, hty, hnv]
    · cases hty : data.type with
      | none => simp [Interaction.create, hty, VALID_TYPES]
      | some ty =>
        by_cases hv : ty ∈ VALID_TYPES
        · simp [Interaction.create, hty, hv]
        · simp only [Interaction.create, hty, hv, if_false, ite_false]
          decide

/-- Witness for the amended C9: adding the invalid-typed payload to the
sample open application on a concrete state. -/
theorem addInteraction_postcondition_witness :
    (getById [appOpen] "a1" = some appOpen) ∧
    ((addInteraction 1000 "ix1" [appOpen] "a1" bogusInput none).success = true ∧
      (addInteraction 1000 "ix1" [appOpen] "a1" bogusInput none).errors = [] ∧
      ∃ upd, getById (addInteraction 1000 "ix1" [appOpen] "a1" bogusInput none).apps "a1" =
          some upd ∧
        upd.interactions = appOpen.interactions ++
          [Interaction.create "ix1" 1000 bogusInput] ∧
        upd.lastUpdated = 1000 ∧
        (∀ ty, bogusInput.type = some ty → ty ∉ VALID_TYPES →
          (Interaction.create "ix1" 1000 bogusInput).type = "note") ∧
        (Interaction.create "ix1" 1000 bogusInput).type ∈ VALID_TYPES) :=
  ⟨by decide,
    (addInteraction_postcondition 1000 "ix1" [appOpen] "a1" bogusInput).2 appOpen
      (by decide)⟩

/-- Claim C10: the merge branch of `importData` appends exactly those
payload records whose id does not occur among the ids of the current
collection — in payload order — and keeps the current collection as an
unchanged prefix; a payload record whose id already exists is skipped
entirely. -/
theorem importDataMerge_spec (apps payload : List App) :
    importDataMerge apps payload =
      apps ++ payload.filter (fun a => decide (∀ b ∈ apps, b.id ≠ a.id)) := by
  show apps ++ payload.filter (fun a => !(apps.map (fun x => x.id)).contains a.id) =
    apps ++ payload.filter (fun a => decide (∀ b ∈ apps, b.id ≠ a.id))
  congr 1
  apply List.filter_congr
  intro a _
  by_cases h : a.id ∈ apps.map (fun x => x.id)
  · obtain ⟨b, hb, hid⟩ := List.mem_map.mp h
    have hc : (apps.map (fun x => x.id)).contains a.id = true := List.elem_iff.mpr h
    simp only [hc, Bool.not_true]
    symm
    rw [decide_eq_false_iff_not]
    intro hall
    exact hall b hb hid
  · have hc : ¬((apps.map (fun x => x.id)).contains a.id = true) :=
      fun hcc => h (List.elem_iff.mp hcc)
    rw [Bool.not_eq_true] at hc
    simp only [hc, Bool.not_false]
    symm
    rw [decide_eq_true_eq]
    intro b hb hid
    exact h (List.mem_map.mpr ⟨b, hb, hid⟩)

end JobHunt
